import Mathlib

/-!
Shallow embedding of `main.py` (Reddit hot-posts-to-CSV pipeline) and proofs
of the specification claims about it.

The program fetches the hot listing of a subreddit, then for each listed post
fetches its first batch of comments, flattens the comment nodes, and writes one
CSV row per comment.  Network responses are abstracted by an environment
oracle; everything else is translated statement by statement from the source.

Python semantics captured here:
- JSON values are the inductive `JSON`.
- `d.get(k)` and `d.get(k, default)` on dict-like values return the stored
  value, `null` resp. the default when the key is absent, and raise
  AttributeError when the receiver is not a dict.  Raising is modelled by
  `Except.error`.
- String concatenation `"..." + x` raises TypeError unless `x` is a string.
- Truthiness of a JSON value follows Python falsiness rules.
- Iterating a value yields its elements for a list, its one-character strings
  for a string, its keys for a dict, and raises TypeError otherwise.
- Numbers are carried opaquely as integers; the program never computes with
  them, so the carrier does not matter.
-/

namespace RedditCsv

/-- JSON values, as delivered by the upstream API after parsing. -/
inductive JSON where
  | null
  | bool (b : Bool)
  | num (n : Int)
  | str (s : String)
  | arr (elems : List JSON)
  | obj (fields : List (String × JSON))

/-- Python `receiver.get(k)`: stored value, `null` when the key is absent,
AttributeError when the receiver is not a dict. -/
def pyGet (j : JSON) (k : String) : Except String JSON :=
  match j with
  | .obj kvs =>
      match kvs.lookup k with
      | some v => .ok v
      | none => .ok .null
  | _ => .error "AttributeError"

/-- Python `receiver.get(k, d)`: stored value, the default `d` when the key is
absent, AttributeError when the receiver is not a dict. -/
def pyGetD (j : JSON) (k : String) (d : JSON) : Except String JSON :=
  match j with
  | .obj kvs =>
      match kvs.lookup k with
      | some v => .ok v
      | none => .ok d
  | _ => .error "AttributeError"

/-- Python `a + b` where `a` is a string: TypeError unless `b` is a string. -/
def pyStrConcat (a : String) (b : JSON) : Except String String :=
  match b with
  | .str s => .ok (a ++ s)
  | _ => .error "TypeError"

/-- Python `v == s` for a string literal `s`: true exactly when `v` is an
equal string. -/
def pyEqStr (j : JSON) (s : String) : Bool :=
  match j with
  | .str t => t = s
  | _ => false

/-- Python truthiness of a JSON value. -/
def pyTruthy (j : JSON) : Bool :=
  match j with
  | .null => false
  | .bool b => b
  | .num n => n != 0
  | .str s => s != ""
  | .arr elems => !elems.isEmpty
  | .obj kvs => !kvs.isEmpty

/-- Python iteration over a JSON value: elements of a list, one-character
strings of a string, keys of a dict; TypeError otherwise. -/
def pyIter (j : JSON) : Except String (List JSON) :=
  match j with
  | .arr elems => .ok elems
  | .str s => .ok (s.data.map (fun ch => JSON.str (String.mk [ch])))
  | .obj kvs => .ok (kvs.map (fun kv => JSON.str kv.fst))
  | _ => .error "TypeError"

/-- Comment record, lines 139-147 of main.py: every field is the result of a
defensive `cd.get(...)`, hence an arbitrary JSON value (possibly null). -/
structure Comment where
  id : JSON
  author : JSON
  body : JSON
  score : JSON
  created_utc : JSON
  parent_id : JSON
  is_submitter : JSON

/-- Post record, lines 150-155 of main.py.  The permalink is always a Python
string because it is built by string concatenation (line 95). -/
structure Post where
  id : JSON
  title : JSON
  permalink : String
  index_in_hot : Nat

/-- Status of one per-post result dict: the three append sites in the loop
body (lines 109-113, 119-123, 149-159 of main.py). -/
inductive PStatus where
  | ok
  | fetch_error (msg : String)
  | unexpected_shape

/-- One element of the `results` list built by the loop. -/
structure PostResult where
  post : Post
  comments : List Comment
  status : PStatus

/-- Lines 138-147 of main.py: `cd = c.get("data", default empty dict)`
followed by one defensive `cd.get` per comment field. -/
def extractComment (c : JSON) : Except String Comment := do
  let cd ← pyGetD c "data" (JSON.obj [])
  let cid ← pyGet cd "id"
  let cauthor ← pyGet cd "author"
  let cbody ← pyGet cd "body"
  let cscore ← pyGet cd "score"
  let ccreated ← pyGet cd "created_utc"
  let cparent ← pyGet cd "parent_id"
  let csubm ← pyGet cd "is_submitter"
  .ok ⟨cid, cauthor, cbody, cscore, ccreated, cparent, csubm⟩

/-- Lines 134-147 of main.py: iterate the children, skip every entry whose
kind is not the string t1, extract the comment fields of the rest. -/
def flattenChildren : List JSON → Except String (List Comment)
  | [] => .ok []
  | c :: rest => do
      let kind ← pyGet c "kind"
      if pyEqStr kind "t1" then
        let cm ← extractComment c
        let tail ← flattenChildren rest
        .ok (cm :: tail)
      else
        flattenChildren rest

/-- Line 118 of main.py, positively: when `comments_json` is a list of at
least two elements, return the element at index 1, otherwise `none`. -/
def secondElement (j : JSON) : Option JSON :=
  match j with
  | .arr (_ :: x :: _) => some x
  | _ => none

/-- Lines 128-147 of main.py applied to `comments_json` index 1:
`second.get("data", default dict).get("children", default list)`, then the
extraction loop over the children. -/
def flattenSecond (second : JSON) : Except String (List Comment) := do
  let d ← pyGetD second "data" (JSON.obj [])
  let children ← pyGetD d "children" (JSON.arr [])
  let items ← pyIter children
  flattenChildren items

/-- Comment sequence a successfully processed post ends up with, as a function
of the raw fetched body: empty on shape failure, the flattened children when
flattening succeeds (when flattening raises, the loop aborts and no comment
sequence is recorded at all, so the default branch is never observed in a
completed run). -/
def commentsOf (body : JSON) : List Comment :=
  match secondElement body with
  | none => []
  | some second =>
      match flattenSecond second with
      | .ok cs => cs
      | .error _ => []

/-- Lines 92-95 of main.py: defensive extraction of id and title, and the
permalink built by concatenating the fixed host prefix with the upstream
permalink field (empty-string default). -/
def extractPost (idx : Nat) (child : JSON) : Except String Post := do
  let d ← pyGetD child "data" (JSON.obj [])
  let pid ← pyGet d "id"
  let ptitle ← pyGet d "title"
  let pl ← pyGetD d "permalink" (JSON.str "")
  let permalink ← pyStrConcat "https://www.reddit.com" pl
  .ok ⟨pid, ptitle, permalink, idx⟩

/-- One CSV data row, fields as in lines 26-29 and 37-50 of main.py. -/
structure Row where
  subreddit : String
  post_id : JSON
  post_title : JSON
  post_index_in_hot : Nat
  post_permalink : String
  comment_id : JSON
  author : JSON
  body : JSON
  score : JSON
  created_utc : JSON
  parent_id : JSON
  is_submitter : JSON

/-- Lines 31-50 of main.py: the content of the written CSV file, as the list
of data rows below the header: one row per comment of each result, posts in
result order, comments in their stored order. -/
def save_comments_csv (subreddit : String) (results : List PostResult) : List Row :=
  results.flatMap (fun item =>
    item.comments.map (fun c =>
      { subreddit := subreddit
        post_id := item.post.id
        post_title := item.post.title
        post_index_in_hot := item.post.index_in_hot
        post_permalink := item.post.permalink
        comment_id := c.id
        author := c.author
        body := c.body
        score := c.score
        created_utc := c.created_utc
        parent_id := c.parent_id
        is_submitter := c.is_submitter }))

/-- Observable side effects of a run, in order: the listing request, each
per-post comment request (by 1-based listing index), each `time.sleep`
(with its duration in milliseconds), and the CSV file write. -/
inductive Event where
  | listingFetch
  | commentFetch (idx : Nat)
  | sleep (ms : Nat)
  | csvWrite

/-- Lines 114-115, 124-125, 161-162 of main.py: `if polite_delay_ms: sleep`,
so exactly one sleep event when the delay is nonzero, none when it is zero. -/
def sleepEvents (delay : Nat) : List Event :=
  if delay != 0 then [Event.sleep delay] else []

/-- Outcome of one per-post comment fetch (lines 105-107 of main.py): either
some exception was raised during `requests.get`, `raise_for_status` or
`.json()` (all caught by the bare `except Exception`), or a parsed body. -/
inductive CFetch where
  | err (msg : String)
  | ok (body : JSON)

/-- One iteration of the per-post loop, lines 92-162 of main.py, for a given
fetch outcome.  Returns the appended result dict (or the uncaught exception)
together with the events of the iteration that occur from the comment request
onwards. -/
def postIter (delay : Nat) (f : CFetch) (idx : Nat) (child : JSON) :
    Except String PostResult × List Event :=
  match extractPost idx child with
  | .error e => (.error e, [])
  | .ok post =>
      match f with
      | .err msg =>
          (.ok ⟨post, [], .fetch_error msg⟩, Event.commentFetch idx :: sleepEvents delay)
      | .ok body =>
          match secondElement body with
          | none =>
              (.ok ⟨post, [], .unexpected_shape⟩, Event.commentFetch idx :: sleepEvents delay)
          | some second =>
              match flattenSecond second with
              | .error e => (.error e, [Event.commentFetch idx])
              | .ok cs => (.ok ⟨post, cs, .ok⟩, Event.commentFetch idx :: sleepEvents delay)

/-- The per-post loop, lines 91-162 of main.py: `idx` is the 1-based
enumeration counter, `fetches` gives each request outcome by index.  Returns
the accumulated results (or the first uncaught exception) and the event
trace. -/
def loop (delay : Nat) (fetches : Nat → CFetch) :
    Nat → List JSON → Except String (List PostResult) × List Event
  | _, [] => (.ok [], [])
  | idx, child :: rest =>
      match postIter delay (fetches idx) idx child with
      | (.error e, evs) => (.error e, evs)
      | (.ok pr, evs) =>
          ((loop delay fetches (idx + 1) rest).1.map (fun rs => pr :: rs),
           evs ++ (loop delay fetches (idx + 1) rest).2)

/-- Outcome of the single listing request, lines 75-84 of main.py: an
HTTPError raised by `raise_for_status` (carrying the response status code), a
non-HTTPError exception from `requests.get` (network failure, timeout), a
JSON parse failure at line 84 (outside the try block, hence uncaught), or a
parsed body. -/
inductive ListingOutcome where
  | httpError (status : Nat)
  | connError (msg : String)
  | parseError (msg : String)
  | success (body : JSON)

/-- Abstraction of the network for one run: the listing response and the
comment-fetch outcome for each 1-based post index. -/
structure Env where
  listing : ListingOutcome
  fetches : Nat → CFetch

/-- The summary dict returned at lines 166-175 of main.py (the static
reminder fields are constants and carry no information). -/
structure Summary where
  subreddit : String
  posts_processed : Nat
  comments_total_returned : Nat

/-- Everything a completed run produces: the accumulated results list, the
written CSV data rows, and the returned summary. -/
structure RunOutput where
  results : List PostResult
  csv : List Row
  summary : Summary

/-- How a run fails: an HTTPException raised deliberately (status code and
detail message), or an uncaught Python exception surfacing through the
framework. -/
inductive RunErr where
  | http (status : Nat) (detail : String)
  | uncaught (msg : String)

/-- Line 85 of main.py: `posts_json.get("data", default dict).get("children",
default list)`. -/
def listChildren (body : JSON) : Except String JSON :=
  match pyGetD body "data" (JSON.obj []) with
  | .error e => .error e
  | .ok d => pyGetD d "children" (JSON.arr [])

/-- The endpoint, lines 57-175 of main.py.  The query parameters other than
`polite_delay_ms` only shape the outbound request URLs, which the environment
oracle abstracts; they are kept for fidelity of the signature. -/
def reddit_hot_comments_to_csv (subreddit : String)
    (posts_limit comments_limit depth : Nat) (sort : String)
    (polite_delay_ms : Nat) (env : Env) :
    Except RunErr RunOutput × List Event :=
  match env.listing with
  | .httpError st => (.error (.http st "Erro HTTP ao listar posts"), [Event.listingFetch])
  | .connError _ => (.error (.http 500 "Erro ao listar posts"), [Event.listingFetch])
  | .parseError m => (.error (.uncaught m), [Event.listingFetch])
  | .success body =>
      match listChildren body with
      | .error e => (.error (.uncaught e), [Event.listingFetch])
      | .ok children =>
          if pyTruthy children then
            match pyIter children with
            | .error e => (.error (.uncaught e), [Event.listingFetch])
            | .ok kids =>
                match loop polite_delay_ms env.fetches 1 kids with
                | (.error e, evs) => (.error (.uncaught e), Event.listingFetch :: evs)
                | (.ok results, evs) =>
                    (.ok { results := results
                           csv := save_comments_csv subreddit results
                           summary := { subreddit := subreddit
                                        posts_processed := results.length
                                        comments_total_returned :=
                                          (results.map (fun r => r.comments.length)).sum } },
                     Event.listingFetch :: (evs ++ [Event.csvWrite]))
          else
            (.error (.http 404 "Nenhum post encontrado nesse subreddit."), [Event.listingFetch])

/-- Spec-side comparator for the refinement claim: defensive field lookup as
worded in the spec, missing fields map to null and never raise (total). -/
def specGet (j : JSON) (k : String) : JSON :=
  match j with
  | .obj kvs => (kvs.lookup k).getD .null
  | _ => .null

/-- Spec-side comparator: a child entry whose discriminator marks it as an
actual comment node (kind is the string t1). -/
def isT1 (c : JSON) : Bool :=
  pyEqStr (specGet c "kind") "t1"

/-- Spec-side comparator: the Comment fields extracted defensively from one
included entry, missing fields mapping to null. -/
def specComment (c : JSON) : Comment :=
  let cd := specGet c "data"
  ⟨specGet cd "id", specGet cd "author", specGet cd "body", specGet cd "score",
   specGet cd "created_utc", specGet cd "parent_id", specGet cd "is_submitter"⟩

/-- Spec-side comparator: the list of children of the second top-level
element of the comment response. -/
def specChildren (second : JSON) : List JSON :=
  match specGet (specGet second "data") "children" with
  | .arr elems => elems
  | _ => []

/-- Spec-side comparator: the Flattener as worded in the spec — include
exactly the kind-t1 children, in upstream order, each extracted defensively. -/
def specFlatten (second : JSON) : List Comment :=
  ((specChildren second).filter isT1).map specComment

/-- Whether a JSON value is a dict. -/
def isObj (j : JSON) : Bool :=
  match j with
  | .obj _ => true
  | _ => false

/-- Well-typedness of one child entry of the comment forest: the entry is a
dict and its data field, when present, is a dict (field values themselves are
unconstrained — dict lookups never raise). -/
def childWF (c : JSON) : Bool :=
  match c with
  | .obj kvs =>
      match kvs.lookup "data" with
      | some v => isObj v
      | none => true
  | _ => false

/-- Well-typedness of the second top-level element of a comment response: a
dict whose data field (when present) is a dict whose children field (when
present) is a list of well-typed child entries. -/
def secondWF (second : JSON) : Bool :=
  match second with
  | .obj kvs =>
      match kvs.lookup "data" with
      | some (.obj dkvs) =>
          (match dkvs.lookup "children" with
           | some (.arr items) => items.all childWF
           | some _ => false
           | none => true)
      | some _ => false
      | none => true
  | _ => false

/-- Whether an event is a sleep pause. -/
def isSleepEvt (e : Event) : Bool :=
  match e with
  | .sleep _ => true
  | _ => false

/-- The event trace the per-post loop emits for `n` iterations starting at
1-based index `i`: one comment request per iteration, followed by one sleep
exactly when the delay is nonzero.  The trace does not depend on the fetch
outcomes. -/
def expectedTrace (delay i : Nat) : Nat → List Event
  | 0 => []
  | n + 1 => (Event.commentFetch i :: sleepEvents delay) ++ expectedTrace delay (i + 1) n

/-- The fetch oracle with the outcome at index `k` replaced by an exception
with message `m`: the counterfactual in which exactly one comment fetch
fails. -/
def updateFetch (f : Nat → CFetch) (k : Nat) (m : String) : Nat → CFetch :=
  fun j => if j = k then CFetch.err m else f j

/-! Concrete sample data used to instantiate the theorems. -/

/-- Sample listing entry carrying full post data. -/
def childA1 : JSON :=
  .obj [("data", .obj [("id", .str "p1"), ("title", .str "T1"),
        ("permalink", .str "/r/x/1")])]

/-- Sample listing entry with no data at all (every field defaults). -/
def childA2 : JSON := .obj []

/-- Sample comment child of kind t1. -/
def t1A : JSON :=
  .obj [("kind", .str "t1"), ("data", .obj [("id", .str "c1"), ("body", .str "hi")])]

/-- Sample non-comment child (a continuation marker). -/
def moreA : JSON := .obj [("kind", .str "more")]

/-- Sample second element of a comment response. -/
def secondA : JSON := .obj [("data", .obj [("children", .arr [t1A, moreA])])]

/-- Sample well-shaped comment response body. -/
def commentBodyA : JSON := .arr [.null, secondA]

/-- Sample listing body with two posts. -/
def bodyA : JSON := .obj [("data", .obj [("children", .arr [childA1, childA2])])]

/-- Sample fetch oracle: post 1 succeeds, post 2 raises. -/
def fetchesA : Nat → CFetch :=
  fun i => if i = 1 then .ok commentBodyA else .err "boom"

/-- Post extracted from the first sample listing entry. -/
def postA1 : Post := ⟨.str "p1", .str "T1", "https://www.reddit.com/r/x/1", 1⟩

/-- Post extracted from the second (empty) sample listing entry. -/
def postA2 : Post := ⟨.null, .null, "https://www.reddit.com", 2⟩

/-- Comment extracted from the sample t1 child. -/
def commentA : Comment := ⟨.str "c1", .null, .str "hi", .null, .null, .null, .null⟩

/-- The single CSV row of the sample run. -/
def rowA : Row :=
  ⟨"s", .str "p1", .str "T1", 1, "https://www.reddit.com/r/x/1",
   .str "c1", .null, .str "hi", .null, .null, .null, .null⟩

/-- Output of the sample run with delay 0. -/
def outA : RunOutput :=
  ⟨[⟨postA1, [commentA], .ok⟩, ⟨postA2, [], .fetch_error "boom"⟩],
   [rowA], ⟨"s", 2, 1⟩⟩

/-- Event trace of the sample run with delay 0. -/
def trA : List Event := [.listingFetch, .commentFetch 1, .commentFetch 2, .csvWrite]

/-- Listing body with two data-free posts, for the posts-limit counterexample. -/
def bodyC5 : JSON := .obj [("data", .obj [("children", .arr [.obj [], .obj []])])]

/-- Listing body whose children list is empty. -/
def bodyEmpty : JSON := .obj [("data", .obj [("children", .arr [])])]

/-! Helper lemmas about the embedded operations. -/

theorem sampleRun_eq :
    reddit_hot_comments_to_csv "s" 5 200 2 "confidence" 0 ⟨.success bodyA, fetchesA⟩ =
      (.ok outA, trA) := rfl

theorem updateFetch_self (f : Nat → CFetch) (k : Nat) (m : String) :
    updateFetch f k m k = .err m := by
  simp [updateFetch]

theorem updateFetch_other (f : Nat → CFetch) (k : Nat) (m : String) {j : Nat}
    (h : j ≠ k) : updateFetch f k m j = f j := by
  simp [updateFetch, h]

theorem exceptBindOk {α β ε : Type} (a : α) (f : α → Except ε β) :
    (Except.ok a >>= f) = f a := rfl

theorem exceptBindErr {α β ε : Type} (e : ε) (f : α → Except ε β) :
    ((Except.error e : Except ε α) >>= f) = Except.error e := rfl

theorem pyGet_obj (kvs : List (String × JSON)) (k : String) :
    pyGet (JSON.obj kvs) k = .ok (specGet (JSON.obj kvs) k) := by
  simp only [pyGet, specGet]
  cases kvs.lookup k <;> rfl

theorem pyStrConcat_elim {a : String} {b : JSON} {r : String}
    (h : pyStrConcat a b = .ok r) : ∃ s, b = JSON.str s ∧ r = a ++ s := by
  unfold pyStrConcat at h
  cases b <;> simp_all

theorem extractPost_elim {idx : Nat} {child : JSON} {p : Post}
    (h : extractPost idx child = .ok p) :
    p.index_in_hot = idx ∧
    ∃ d s, pyGetD child "data" (JSON.obj []) = .ok d ∧
      pyGetD d "permalink" (JSON.str "") = .ok (JSON.str s) ∧
      p.permalink = "https://www.reddit.com" ++ s := by
  unfold extractPost at h
  rcases hd : pyGetD child "data" (JSON.obj []) with e | d <;> rw [hd] at h
  · rw [exceptBindErr] at h; simp at h
  rw [exceptBindOk] at h
  rcases hid : pyGet d "id" with e | pid <;> rw [hid] at h
  · rw [exceptBindErr] at h; simp at h
  rw [exceptBindOk] at h
  rcases hti : pyGet d "title" with e | ptitle <;> rw [hti] at h
  · rw [exceptBindErr] at h; simp at h
  rw [exceptBindOk] at h
  rcases hpl : pyGetD d "permalink" (JSON.str "") with e | pl <;> rw [hpl] at h
  · rw [exceptBindErr] at h; simp at h
  rw [exceptBindOk] at h
  rcases hcc : pyStrConcat "https://www.reddit.com" pl with e | perma <;> rw [hcc] at h
  · rw [exceptBindErr] at h; simp at h
  rw [exceptBindOk] at h
  obtain ⟨s, hpls, hperma⟩ := pyStrConcat_elim hcc
  injection h with h
  subst h hpls hperma
  exact ⟨rfl, d, s, rfl, hpl, rfl⟩

theorem postIter_extract_err (delay : Nat) (f : CFetch) (idx : Nat) (child : JSON)
    (e : String) (he : extractPost idx child = .error e) :
    postIter delay f idx child = (.error e, []) := by
  simp only [postIter, he]

theorem postIter_fetch_err (delay idx : Nat) {child : JSON} {post : Post} (m : String)
    (he : extractPost idx child = .ok post) :
    postIter delay (CFetch.err m) idx child =
      (.ok ⟨post, [], .fetch_error m⟩, Event.commentFetch idx :: sleepEvents delay) := by
  simp only [postIter, he]

theorem postIter_shape (delay idx : Nat) {child : JSON} {post : Post} {body : JSON}
    (he : extractPost idx child = .ok post) (hs : secondElement body = none) :
    postIter delay (CFetch.ok body) idx child =
      (.ok ⟨post, [], .unexpected_shape⟩, Event.commentFetch idx :: sleepEvents delay) := by
  simp only [postIter, he, hs]

theorem postIter_flatten_err (delay idx : Nat) {child : JSON} {post : Post}
    {body second : JSON} {e : String}
    (he : extractPost idx child = .ok post) (hs : secondElement body = some second)
    (hf : flattenSecond second = .error e) :
    postIter delay (CFetch.ok body) idx child = (.error e, [Event.commentFetch idx]) := by
  simp only [postIter, he, hs, hf]

theorem postIter_flatten_ok (delay idx : Nat) {child : JSON} {post : Post}
    {body second : JSON} {cs : List Comment}
    (he : extractPost idx child = .ok post) (hs : secondElement body = some second)
    (hf : flattenSecond second = .ok cs) :
    postIter delay (CFetch.ok body) idx child =
      (.ok ⟨post, cs, .ok⟩, Event.commentFetch idx :: sleepEvents delay) := by
  simp only [postIter, he, hs, hf]

theorem postIter_ok_elim {delay : Nat} {f : CFetch} {idx : Nat} {child : JSON}
    {pr : PostResult} {evs : List Event}
    (h : postIter delay f idx child = (.ok pr, evs)) :
    extractPost idx child = .ok pr.post ∧
    evs = Event.commentFetch idx :: sleepEvents delay ∧
    (∀ m, f = .err m → pr.comments = [] ∧ pr.status = .fetch_error m) ∧
    (∀ body, f = .ok body → pr.comments = commentsOf body) ∧
    ((∃ m, pr.status = .fetch_error m) ∨ pr.status = .unexpected_shape → pr.comments = []) := by
  rcases he : extractPost idx child with e | post
  · rw [postIter_extract_err delay f idx child e he] at h
    simp at h
  rcases f with m | body
  · rw [postIter_fetch_err delay idx m he] at h
    rw [Prod.mk.injEq] at h
    obtain ⟨h1, h2⟩ := h
    injection h1 with h1
    subst h1 h2
    refine ⟨rfl, rfl, ?_, ?_, ?_⟩
    · intro m2 hm; injection hm with hm; subst hm; exact ⟨rfl, rfl⟩
    · intro body hb; cases hb
    · intro _; rfl
  rcases hs : secondElement body with _ | second
  · rw [postIter_shape delay idx he hs] at h
    rw [Prod.mk.injEq] at h
    obtain ⟨h1, h2⟩ := h
    injection h1 with h1
    subst h1 h2
    refine ⟨rfl, rfl, ?_, ?_, ?_⟩
    · intro m2 hm; cases hm
    · intro body2 hb
      injection hb with hb
      subst hb
      simp [commentsOf, hs]
    · intro _; rfl
  rcases hf : flattenSecond second with e | cs
  · rw [postIter_flatten_err delay idx he hs hf] at h
    simp at h
  · rw [postIter_flatten_ok delay idx he hs hf] at h
    rw [Prod.mk.injEq] at h
    obtain ⟨h1, h2⟩ := h
    injection h1 with h1
    subst h1 h2
    refine ⟨rfl, rfl, ?_, ?_, ?_⟩
    · intro m2 hm; cases hm
    · intro body2 hb
      injection hb with hb
      subst hb
      simp [commentsOf, hs, hf]
    · rintro (⟨m, hm⟩ | hm) <;> cases hm

theorem loop_ok_elim {delay : Nat} {f : Nat → CFetch} {cs : List JSON} :
    ∀ {i : Nat} {rs : List PostResult} {evs : List Event},
    loop delay f i cs = (.ok rs, evs) →
    rs.length = cs.length ∧
    evs = expectedTrace delay i cs.length ∧
    ∀ j child pr, cs[j]? = some child → rs[j]? = some pr →
      postIter delay (f (i + j)) (i + j) child =
        (.ok pr, Event.commentFetch (i + j) :: sleepEvents delay) := by
  induction cs with
  | nil =>
      intro i rs evs h
      simp only [loop] at h
      rw [Prod.mk.injEq] at h
      obtain ⟨h1, h2⟩ := h
      injection h1 with h1
      subst h1
      subst h2
      refine ⟨rfl, rfl, ?_⟩
      intro j child pr hc _hp
      simp at hc
  | cons c rest ih =>
      intro i rs evs h
      simp only [loop] at h
      rcases hp : postIter delay (f i) i c with ⟨res1, evs1⟩
      rw [hp] at h
      rcases res1 with e | pr
      · dsimp only at h
        simp at h
      dsimp only at h
      rcases hl : loop delay f (i + 1) rest with ⟨res2, evs2⟩
      rw [hl] at h
      rcases res2 with e | rs2
      · simp [Except.map] at h
      simp only [Except.map] at h
      rw [Prod.mk.injEq] at h
      obtain ⟨h1, h2⟩ := h
      injection h1 with h1
      subst h1
      subst h2
      have hfacts := postIter_ok_elim hp
      have hev1 : evs1 = Event.commentFetch i :: sleepEvents delay := hfacts.2.1
      obtain ⟨hlen, hevs, hidx⟩ := ih hl
      refine ⟨by simp [hlen], ?_, ?_⟩
      · rw [hev1, hevs]
        simp [expectedTrace, hlen]
      · intro j child pr2 hc hpr
        cases j with
        | zero =>
            simp only [List.getElem?_cons_zero, Option.some.injEq] at hc hpr
            subst hc
            subst hpr
            rw [Nat.add_zero]
            rw [hev1] at hp
            exact hp
        | succ j =>
            simp only [List.getElem?_cons_succ] at hc hpr
            have harith : i + (j + 1) = i + 1 + j := by omega
            rw [harith]
            exact hidx j child pr2 hc hpr

theorem loop_fetches_congr {delay : Nat} {f g : Nat → CFetch} :
    ∀ (cs : List JSON) (i : Nat), (∀ j, i ≤ j → f j = g j) →
    loop delay f i cs = loop delay g i cs := by
  intro cs
  induction cs with
  | nil => intro i _; rfl
  | cons c rest ih =>
      intro i hfg
      simp only [loop]
      rw [hfg i (Nat.le_refl i), ih (i + 1) (fun j hj => hfg j (by omega))]

theorem loop_err_update {delay : Nat} {f : Nat → CFetch} {k : Nat} {m : String}
    {cs : List JSON} :
    ∀ {i : Nat} {rs : List PostResult} {evs : List Event},
    loop delay f i cs = (.ok rs, evs) →
    ∃ rs', loop delay (updateFetch f k m) i cs = (.ok rs', evs) ∧
      rs'.length = rs.length ∧
      ∀ j, (i + j ≠ k → rs'[j]? = rs[j]?) ∧
        (∀ pr, i + j = k → rs[j]? = some pr →
          rs'[j]? = some ⟨pr.post, [], .fetch_error m⟩) := by
  induction cs with
  | nil =>
      intro i rs evs h
      simp only [loop] at h
      rw [Prod.mk.injEq] at h
      obtain ⟨h1, h2⟩ := h
      injection h1 with h1
      subst h1
      subst h2
      refine ⟨[], rfl, rfl, ?_⟩
      intro j
      refine ⟨fun _ => rfl, fun pr _ hpr => ?_⟩
      simp at hpr
  | cons c rest ih =>
      intro i rs evs h
      simp only [loop] at h
      rcases hp : postIter delay (f i) i c with ⟨res1, evs1⟩
      rw [hp] at h
      rcases res1 with e | pr
      · dsimp only at h; simp at h
      dsimp only at h
      rcases hl : loop delay f (i + 1) rest with ⟨res2, evs2⟩
      rw [hl] at h
      rcases res2 with e | rs2
      · simp [Except.map] at h
      simp only [Except.map] at h
      rw [Prod.mk.injEq] at h
      obtain ⟨h1, h2⟩ := h
      injection h1 with h1
      subst h1
      subst h2
      have hfacts := postIter_ok_elim hp
      have hpost : extractPost i c = .ok pr.post := hfacts.1
      have hev1 : evs1 = Event.commentFetch i :: sleepEvents delay := hfacts.2.1
      by_cases hik : i = k
      · subst hik
        have htail : loop delay (updateFetch f i m) (i + 1) rest
            = loop delay f (i + 1) rest :=
          loop_fetches_congr rest (i + 1)
            (fun j hj => updateFetch_other f i m (by omega))
        refine ⟨⟨pr.post, [], .fetch_error m⟩ :: rs2, ?_, by simp, ?_⟩
        · simp only [loop, updateFetch_self]
          rw [postIter_fetch_err delay i m hpost, htail, hl]
          simp [Except.map, hev1]
        · intro j
          constructor
          · intro hne
            cases j with
            | zero => exact absurd (by omega) hne
            | succ j => simp only [List.getElem?_cons_succ]
          · intro pr2 heq hpr
            cases j with
            | zero =>
                simp only [List.getElem?_cons_zero, Option.some.injEq] at hpr ⊢
                subst hpr
                rfl
            | succ j => exact absurd heq (by omega)
      · obtain ⟨rs2', htail, hlen2, hidx2⟩ := ih hl
        refine ⟨pr :: rs2', ?_, by simp [hlen2], ?_⟩
        · simp only [loop, updateFetch_other f k m hik]
          rw [hp]
          dsimp only
          rw [htail]
          simp [Except.map]
        · intro j
          constructor
          · intro hne
            cases j with
            | zero => simp
            | succ j =>
                simp only [List.getElem?_cons_succ]
                exact (hidx2 j).1 (by omega)
          · intro pr2 heq hpr
            cases j with
            | zero => exact absurd heq (by omega)
            | succ j =>
                simp only [List.getElem?_cons_succ] at hpr ⊢
                exact (hidx2 j).2 pr2 (by omega) hpr

theorem run_success_intro {sub : String} {pl cl dp : Nat} {srt : String} {delay : Nat}
    {body children : JSON} {f : Nat → CFetch} {kids : List JSON}
    {rs : List PostResult} {evs : List Event}
    (hc : listChildren body = .ok children) (ht : pyTruthy children = true)
    (hi : pyIter children = .ok kids) (hl : loop delay f 1 kids = (.ok rs, evs)) :
    reddit_hot_comments_to_csv sub pl cl dp srt delay ⟨.success body, f⟩ =
      (.ok ⟨rs, save_comments_csv sub rs,
            ⟨sub, rs.length, (rs.map (fun r => r.comments.length)).sum⟩⟩,
       Event.listingFetch :: (evs ++ [Event.csvWrite])) := by
  simp only [reddit_hot_comments_to_csv]
  rw [hc]
  dsimp only
  rw [ht]
  simp only [if_true]
  rw [hi]
  dsimp only
  rw [hl]

theorem run_ok_elim {sub : String} {pl cl dp : Nat} {srt : String} {delay : Nat}
    {body : JSON} {f : Nat → CFetch} {out : RunOutput} {tr : List Event}
    (h : reddit_hot_comments_to_csv sub pl cl dp srt delay ⟨.success body, f⟩ =
      (.ok out, tr)) :
    ∃ children kids,
      listChildren body = .ok children ∧
      pyTruthy children = true ∧
      pyIter children = .ok kids ∧
      loop delay f 1 kids = (.ok out.results, expectedTrace delay 1 kids.length) ∧
      tr = Event.listingFetch :: (expectedTrace delay 1 kids.length ++ [Event.csvWrite]) ∧
      out.csv = save_comments_csv sub out.results ∧
      out.summary = ⟨sub, out.results.length,
        (out.results.map (fun r => r.comments.length)).sum⟩ ∧
      out.results.length = kids.length := by
  simp only [reddit_hot_comments_to_csv] at h
  rcases hc : listChildren body with e | children <;> rw [hc] at h
  · dsimp only at h; simp at h
  dsimp only at h
  rcases hb : pyTruthy children with _ | _ <;> rw [hb] at h
  · simp at h
  simp only [if_true] at h
  rcases hi : pyIter children with e | kids <;> rw [hi] at h
  · dsimp only at h; simp at h
  dsimp only at h
  rcases hl : loop delay f 1 kids with ⟨res, evs⟩
  rw [hl] at h
  rcases res with e | rs
  · dsimp only at h; simp at h
  dsimp only at h
  rw [Prod.mk.injEq] at h
  obtain ⟨h1, h2⟩ := h
  injection h1 with h1
  subst h1
  subst h2
  obtain ⟨hlen, hevs, _⟩ := loop_ok_elim hl
  subst hevs
  exact ⟨children, kids, rfl, hb, hi, hl, rfl, rfl, rfl, hlen⟩

theorem extractComment_wf {c : JSON} (h : childWF c = true) :
    extractComment c = .ok (specComment c) := by
  rcases c with _ | b | n | s | elems | kvs <;> simp only [childWF] at h
  iterate 5 exact absurd h (by simp)
  rcases hd : kvs.lookup "data" with _ | v <;> rw [hd] at h <;> try dsimp only at h
  · simp [extractComment, specComment, pyGetD, hd, specGet, pyGet, exceptBindOk]
  · rcases v with _ | _ | _ | _ | _ | dkvs <;> simp only [isObj] at h
    iterate 5 exact absurd h (by simp)
    simp [extractComment, specComment, pyGetD, hd, specGet, pyGet_obj, exceptBindOk]

theorem flattenChildren_wf {items : List JSON} (h : items.all childWF = true) :
    flattenChildren items = .ok ((items.filter isT1).map specComment) := by
  induction items with
  | nil => rfl
  | cons c rest ih =>
      rw [List.all_cons, Bool.and_eq_true] at h
      obtain ⟨hc, hrest⟩ := h
      have hkind : pyGet c "kind" = .ok (specGet c "kind") := by
        rcases c with _ | _ | _ | _ | _ | kvs <;> simp only [childWF] at hc
        iterate 5 exact absurd hc (by simp)
        exact pyGet_obj _ _
      simp only [flattenChildren, hkind, exceptBindOk]
      by_cases ht : pyEqStr (specGet c "kind") "t1" = true
      · rw [if_pos ht, extractComment_wf hc, exceptBindOk, ih hrest, exceptBindOk]
        simp [List.filter_cons, isT1, ht]
      · rw [if_neg ht, ih hrest]
        simp [List.filter_cons, isT1, ht]

theorem flattenSecond_wf {second : JSON} (h : secondWF second = true) :
    flattenSecond second = .ok (specFlatten second) := by
  rcases second with _ | _ | _ | _ | _ | kvs <;> simp only [secondWF] at h
  iterate 5 exact absurd h (by simp)
  rcases hd : kvs.lookup "data" with _ | v <;> rw [hd] at h <;> try dsimp only at h
  · simp [flattenSecond, specFlatten, specChildren, specGet, pyGetD, hd, pyIter,
      exceptBindOk, flattenChildren]
  · rcases v with _ | _ | _ | _ | _ | dkvs
    iterate 5 exact absurd h (by simp)
    dsimp only at h
    rcases hch : dkvs.lookup "children" with _ | w <;> rw [hch] at h <;> try dsimp only at h
    · simp [flattenSecond, specFlatten, specChildren, specGet, pyGetD, hd, hch, pyIter,
        exceptBindOk, flattenChildren]
    · rcases w with _ | _ | _ | _ | items | _
      iterate 4 exact absurd h (by simp)
      · simp [flattenSecond, specFlatten, specChildren, specGet, pyGetD, hd, hch,
          pyIter, exceptBindOk, flattenChildren_wf h]
      · exact absurd h (by simp)

theorem secondElement_none_iff (body : JSON) :
    secondElement body = none ↔ ∀ elems, body = JSON.arr elems → elems.length < 2 := by
  rcases body with _ | _ | _ | _ | elems | _ <;> simp [secondElement]
  rcases elems with _ | ⟨a, _ | ⟨b, rest⟩⟩ <;> simp [secondElement]

theorem lt_length_of_getElem_some {α : Type} {l : List α} {j : Nat} {a : α}
    (h : l[j]? = some a) : j < l.length := by
  by_contra hge
  rw [List.getElem?_eq_none (by omega)] at h
  cases h

theorem countP_expectedTrace (delay : Nat) :
    ∀ (n i : Nat), (expectedTrace delay i n).countP isSleepEvt =
      if delay = 0 then 0 else n := by
  intro n
  induction n with
  | zero => intro i; simp [expectedTrace]
  | succ n ih =>
      intro i
      rw [expectedTrace, List.countP_append, List.countP_cons, ih (i + 1)]
      by_cases h0 : delay = 0 <;>
        simp [h0, sleepEvents, isSleepEvt, List.countP_cons]
      omega

/-! Claim theorems. -/

/-- Claim C3: the output artifact contains exactly one data row per comment
across all posts: the total data-row count equals the sum of the per-post
comment-sequence lengths, and a post with an empty comment sequence
contributes zero rows. -/
theorem claim3_csv_row_count (sub : String) (results : List PostResult) :
    (save_comments_csv sub results).length =
      (results.map (fun r => r.comments.length)).sum ∧
    ∀ pre rest pr, pr.comments = [] →
      save_comments_csv sub (pre ++ pr :: rest) = save_comments_csv sub (pre ++ rest) := by
  constructor
  · simp [save_comments_csv, List.length_flatMap, Function.comp_def, List.length_map]
  · intro pre rest pr hpr
    simp [save_comments_csv, List.flatMap_append, List.flatMap_cons, hpr]

/-- Witness for C3: a fetch-error PostResult contributes zero rows. -/
theorem claim3_witness :
    save_comments_csv "s" [⟨postA2, [], .fetch_error "boom"⟩] =
      save_comments_csv "s" [] := by
  have h := (claim3_csv_row_count "s" []).2 [] []
    ⟨postA2, [], .fetch_error "boom"⟩ rfl
  simpa using h

/-- Claim C4: a listing fetch HTTP error aborts the run with the upstream
status code, any other listing fetch exception aborts with the generic 500
status, and a falsy (in particular empty) children list aborts with a 404
not-found status; in each case the trace shows no comment fetch and no CSV
write after the listing fetch. -/
theorem claim4_listing_failure_aborts (sub : String) (pl cl dp : Nat) (srt : String)
    (delay : Nat) (f : Nat → CFetch) :
    (∀ st, reddit_hot_comments_to_csv sub pl cl dp srt delay ⟨.httpError st, f⟩ =
      (.error (.http st "Erro HTTP ao listar posts"), [Event.listingFetch])) ∧
    (∀ m, reddit_hot_comments_to_csv sub pl cl dp srt delay ⟨.connError m, f⟩ =
      (.error (.http 500 "Erro ao listar posts"), [Event.listingFetch])) ∧
    (∀ body children, listChildren body = .ok children → pyTruthy children = false →
      reddit_hot_comments_to_csv sub pl cl dp srt delay ⟨.success body, f⟩ =
        (.error (.http 404 "Nenhum post encontrado nesse subreddit."),
         [Event.listingFetch])) := by
  refine ⟨fun st => rfl, fun m => rfl, ?_⟩
  intro body children hc ht
  simp only [reddit_hot_comments_to_csv]
  rw [hc]
  dsimp only
  rw [ht]
  simp

/-- Witness for C4: a listing with an empty children list produces the 404
abort with only the listing fetch in the trace. -/
theorem claim4_witness :
    reddit_hot_comments_to_csv "s" 5 200 2 "confidence" 0 ⟨.success bodyEmpty, fetchesA⟩ =
      (.error (.http 404 "Nenhum post encontrado nesse subreddit."),
       [Event.listingFetch]) :=
  (claim4_listing_failure_aborts "s" 5 200 2 "confidence" 0 fetchesA).2.2
    bodyEmpty (JSON.arr []) rfl rfl

/-- Claim C6: every PostResult of a completed run whose status is fetch_error
or unexpected_shape has an empty comment sequence. -/
theorem claim6_failed_posts_have_no_comments (sub : String) (pl cl dp : Nat)
    (srt : String) (delay : Nat) (env : Env) (out : RunOutput) (tr : List Event)
    (h : reddit_hot_comments_to_csv sub pl cl dp srt delay env = (.ok out, tr)) :
    ∀ pr ∈ out.results,
      ((∃ m, pr.status = .fetch_error m) ∨ pr.status = .unexpected_shape) →
      pr.comments = [] := by
  rcases env with ⟨listing, f⟩
  rcases listing with st | m | m | body
  · exact absurd h (by simp [reddit_hot_comments_to_csv])
  · exact absurd h (by simp [reddit_hot_comments_to_csv])
  · exact absurd h (by simp [reddit_hot_comments_to_csv])
  intro pr hpr hbad
  obtain ⟨children, kids, hc, ht, hi, hl, htr, hcsv, hsum, hlen⟩ := run_ok_elim h
  obtain ⟨j, hj, hget⟩ := List.getElem_of_mem hpr
  have hkj : j < kids.length := by omega
  have hprq : out.results[j]? = some pr := by
    rw [List.getElem?_eq_getElem hj, hget]
  have hpi := (loop_ok_elim hl).2.2 j kids[j] pr (List.getElem?_eq_getElem hkj) hprq
  exact (postIter_ok_elim hpi).2.2.2.2 hbad

/-- Witness for C6: the fetch-error post of the sample run has no comments. -/
theorem claim6_witness :
    (⟨postA2, [], PStatus.fetch_error "boom"⟩ : PostResult).comments = [] :=
  claim6_failed_posts_have_no_comments "s" 5 200 2 "confidence" 0
    ⟨.success bodyA, fetchesA⟩ outA trA sampleRun_eq
    ⟨postA2, [], PStatus.fetch_error "boom"⟩
    (List.Mem.tail _ (List.Mem.head _)) (Or.inl ⟨"boom", rfl⟩)

/-- Claim C5, amended: for a completed run, posts_processed equals the number
of entries in the listing response; the code applies no cap of its own, so
posts_processed is bounded by posts_limit exactly when the upstream honoured
the limit. -/
theorem claim5_amended_posts_processed (sub : String) (pl cl dp : Nat) (srt : String)
    (delay : Nat) (body : JSON) (f : Nat → CFetch) (out : RunOutput) (tr : List Event)
    (children : JSON) (kids : List JSON)
    (hc : listChildren body = .ok children) (hi : pyIter children = .ok kids)
    (h : reddit_hot_comments_to_csv sub pl cl dp srt delay ⟨.success body, f⟩ =
      (.ok out, tr)) :
    out.summary.posts_processed = kids.length ∧
    (kids.length ≤ pl → out.summary.posts_processed ≤ pl) := by
  obtain ⟨children2, kids2, hc2, ht2, hi2, hl2, htr2, hcsv2, hsum2, hlen2⟩ := run_ok_elim h
  rw [hc] at hc2
  injection hc2 with hc2
  subst hc2
  rw [hi] at hi2
  injection hi2 with hi2
  subst hi2
  have hval : out.summary.posts_processed = kids.length := by
    rw [hsum2]
    exact hlen2
  exact ⟨hval, fun hle => by omega⟩

/-- Counterexample for C5 as stated: with posts_limit 1 but a listing response
containing 2 entries, the run completes with posts_processed = 2, exceeding
posts_limit. -/
theorem claim5_counterexample :
    (reddit_hot_comments_to_csv "s" 1 200 2 "confidence" 0
        ⟨.success bodyC5, fun _ => CFetch.err "x"⟩).1.map
      (fun o => o.summary.posts_processed) = Except.ok 2 ∧ ¬ (2 ≤ 1) :=
  ⟨rfl, by decide⟩

/-- Witness for C5 (amended): the sample run processed both listed posts. -/
theorem claim5_witness :
    outA.summary.posts_processed = [childA1, childA2].length ∧
    ([childA1, childA2].length ≤ 5 → outA.summary.posts_processed ≤ 5) :=
  claim5_amended_posts_processed "s" 5 200 2 "confidence" 0 bodyA fetchesA outA trA
    (JSON.arr [childA1, childA2]) [childA1, childA2] rfl rfl sampleRun_eq

/-- Claim C7: in a completed run the index_in_listing values are exactly
1, 2, 3, ... in result order (strictly increasing from 1 with no gaps), and
each PostResult corresponds to the listing entry at the same position. -/
theorem claim7_index_correspondence (sub : String) (pl cl dp : Nat) (srt : String)
    (delay : Nat) (body : JSON) (f : Nat → CFetch) (out : RunOutput) (tr : List Event)
    (h : reddit_hot_comments_to_csv sub pl cl dp srt delay ⟨.success body, f⟩ =
      (.ok out, tr)) :
    (∀ j pr, out.results[j]? = some pr → pr.post.index_in_hot = j + 1) ∧
    (∀ children kids, listChildren body = .ok children → pyIter children = .ok kids →
      out.results.length = kids.length ∧
      ∀ j pr child, out.results[j]? = some pr → kids[j]? = some child →
        extractPost (j + 1) child = .ok pr.post) := by
  obtain ⟨children2, kids2, hc2, ht2, hi2, hl2, htr2, hcsv2, hsum2, hlen2⟩ := run_ok_elim h
  constructor
  · intro j pr hpr
    have hj : j < out.results.length := lt_length_of_getElem_some hpr
    have hkj : j < kids2.length := by omega
    have hpi := (loop_ok_elim hl2).2.2 j kids2[j] pr (List.getElem?_eq_getElem hkj) hpr
    have hidx := (extractPost_elim (postIter_ok_elim hpi).1).1
    omega
  · intro children kids hc hi
    rw [hc2] at hc
    injection hc with hc
    subst hc
    rw [hi2] at hi
    injection hi with hi
    subst hi
    refine ⟨hlen2, ?_⟩
    intro j pr child hpr hchild
    have hpi := (loop_ok_elim hl2).2.2 j child pr hchild hpr
    have hpost := (postIter_ok_elim hpi).1
    rw [show 1 + j = j + 1 by omega] at hpost
    exact hpost

/-- Witness for C7: the first result of the sample run has index 1. -/
theorem claim7_witness :
    (⟨postA1, [commentA], PStatus.ok⟩ : PostResult).post.index_in_hot = 0 + 1 :=
  (claim7_index_correspondence "s" 5 200 2 "confidence" 0 bodyA fetchesA outA trA
    sampleRun_eq).1 0 ⟨postA1, [commentA], PStatus.ok⟩ rfl

/-- Event trace of the sample run with delay 250. -/
theorem sampleRun250_eq :
    reddit_hot_comments_to_csv "s" 5 200 2 "confidence" 250 ⟨.success bodyA, fetchesA⟩ =
      (.ok outA,
       [.listingFetch, .commentFetch 1, .sleep 250, .commentFetch 2, .sleep 250,
        .csvWrite]) := rfl

/-- Claim C8: the trace of a completed run is exactly one comment fetch per
post iteration, each followed by one sleep exactly when polite_delay_ms is
nonzero (the sleep occurs regardless of the per-post outcome, since the trace
shape does not depend on the fetch oracle); with delay 0 there are no sleeps;
and the results keep listing order (index j holds listing index j + 1). -/
theorem claim8_delay_trace (sub : String) (pl cl dp : Nat) (srt : String)
    (delay : Nat) (body : JSON) (f : Nat → CFetch) (out : RunOutput) (tr : List Event)
    (h : reddit_hot_comments_to_csv sub pl cl dp srt delay ⟨.success body, f⟩ =
      (.ok out, tr)) :
    tr = Event.listingFetch ::
      (expectedTrace delay 1 out.results.length ++ [Event.csvWrite]) ∧
    (delay = 0 → tr.countP isSleepEvt = 0) ∧
    (0 < delay → tr.countP isSleepEvt = out.results.length) ∧
    (∀ j pr, out.results[j]? = some pr → pr.post.index_in_hot = j + 1) := by
  obtain ⟨children2, kids2, hc2, ht2, hi2, hl2, htr2, hcsv2, hsum2, hlen2⟩ := run_ok_elim h
  have htr : tr = Event.listingFetch ::
      (expectedTrace delay 1 out.results.length ++ [Event.csvWrite]) := by
    rw [htr2, hlen2]
  refine ⟨htr, ?_, ?_, ?_⟩
  · intro h0
    rw [htr, List.countP_cons, List.countP_append, countP_expectedTrace]
    simp [isSleepEvt, h0]
  · intro h0
    rw [htr, List.countP_cons, List.countP_append, countP_expectedTrace]
    have : ¬ delay = 0 := by omega
    simp [isSleepEvt, this]
  · intro j pr hpr
    have hj : j < out.results.length := lt_length_of_getElem_some hpr
    have hkj : j < kids2.length := by omega
    have hpi := (loop_ok_elim hl2).2.2 j kids2[j] pr (List.getElem?_eq_getElem hkj) hpr
    have hidx := (extractPost_elim (postIter_ok_elim hpi).1).1
    omega

/-- Witness for C8: the sample run with delay 250 sleeps once per post. -/
theorem claim8_witness :
    ([Event.listingFetch, Event.commentFetch 1, Event.sleep 250,
      Event.commentFetch 2, Event.sleep 250, Event.csvWrite].countP isSleepEvt) =
      outA.results.length :=
  (claim8_delay_trace "s" 5 200 2 "confidence" 250 bodyA fetchesA outA _
    sampleRun250_eq).2.2.1 (by omega)

/-- Claim C9: the Flattener is deterministic and stateless: in any two
completed runs (same or different parameters), posts whose comment fetches
returned the same raw body end up with the same ordered comment sequence. -/
theorem claim9_flattener_deterministic
    (subA : String) (plA clA dpA : Nat) (srtA : String) (delayA : Nat)
    (bodyA1 : JSON) (fA : Nat → CFetch) (outA1 : RunOutput) (trA1 : List Event)
    (subB : String) (plB clB dpB : Nat) (srtB : String) (delayB : Nat)
    (bodyB1 : JSON) (fB : Nat → CFetch) (outB1 : RunOutput) (trB1 : List Event)
    (j k : Nat) (rawBody : JSON) (prA : PostResult) (prB : PostResult)
    (hA : reddit_hot_comments_to_csv subA plA clA dpA srtA delayA
      ⟨.success bodyA1, fA⟩ = (.ok outA1, trA1))
    (hB : reddit_hot_comments_to_csv subB plB clB dpB srtB delayB
      ⟨.success bodyB1, fB⟩ = (.ok outB1, trB1))
    (hja : outA1.results[j]? = some prA) (hkb : outB1.results[k]? = some prB)
    (hfa : fA (j + 1) = CFetch.ok rawBody) (hfb : fB (k + 1) = CFetch.ok rawBody) :
    prA.comments = prB.comments := by
  obtain ⟨cA, kA, hcA, htA, hiA, hlA, _, _, _, hlenA⟩ := run_ok_elim hA
  obtain ⟨cB, kB, hcB, htB, hiB, hlB, _, _, _, hlenB⟩ := run_ok_elim hB
  have hjlt : j < outA1.results.length := lt_length_of_getElem_some hja
  have hklt : k < outB1.results.length := lt_length_of_getElem_some hkb
  have hkja : j < kA.length := by omega
  have hkkb : k < kB.length := by omega
  have hpiA := (loop_ok_elim hlA).2.2 j kA[j] prA (List.getElem?_eq_getElem hkja) hja
  have hpiB := (loop_ok_elim hlB).2.2 k kB[k] prB (List.getElem?_eq_getElem hkkb) hkb
  rw [show 1 + j = j + 1 by omega, hfa] at hpiA
  rw [show 1 + k = k + 1 by omega, hfb] at hpiB
  have haco := (postIter_ok_elim hpiA).2.2.2.1 rawBody rfl
  have hbco := (postIter_ok_elim hpiB).2.2.2.1 rawBody rfl
  rw [haco, hbco]

/-- Witness for C9: post 1 of the delay-0 sample run and post 1 of the
delay-250 sample run fetched the same body and carry the same comments. -/
theorem claim9_witness :
    (⟨postA1, [commentA], PStatus.ok⟩ : PostResult).comments =
      (⟨postA1, [commentA], PStatus.ok⟩ : PostResult).comments :=
  claim9_flattener_deterministic
    "s" 5 200 2 "confidence" 0 bodyA fetchesA outA trA
    "s" 5 200 2 "confidence" 250 bodyA fetchesA outA _
    0 0 commentBodyA ⟨postA1, [commentA], PStatus.ok⟩ ⟨postA1, [commentA], PStatus.ok⟩
    sampleRun_eq sampleRun250_eq rfl rfl rfl rfl

/-- Claim C10: every stored permalink is the fixed host prefix followed by an
upstream string (so it is never absent or null); when the listing entry
carries a permalink string the stored value is the prefix concatenated with
it, and when the permalink key is absent the stored value is the bare prefix;
the CSV column copies the stored value. -/
theorem claim10_permalink (sub : String) (pl cl dp : Nat) (srt : String)
    (delay : Nat) (body : JSON) (f : Nat → CFetch) (out : RunOutput) (tr : List Event)
    (h : reddit_hot_comments_to_csv sub pl cl dp srt delay ⟨.success body, f⟩ =
      (.ok out, tr)) :
    (∀ pr ∈ out.results, ∃ s, pr.post.permalink = "https://www.reddit.com" ++ s) ∧
    (∀ children kids, listChildren body = .ok children → pyIter children = .ok kids →
      ∀ (j : Nat) (pr : PostResult) (child d : JSON),
        out.results[j]? = some pr → kids[j]? = some child →
        pyGetD child "data" (JSON.obj []) = .ok d →
        (∀ s, pyGetD d "permalink" (JSON.str "") = .ok (JSON.str s) →
          pr.post.permalink = "https://www.reddit.com" ++ s) ∧
        (∀ dkvs, d = JSON.obj dkvs → dkvs.lookup "permalink" = none →
          pr.post.permalink = "https://www.reddit.com")) ∧
    (∀ row ∈ out.csv, ∃ pr ∈ out.results, row.post_permalink = pr.post.permalink) := by
  obtain ⟨children2, kids2, hc2, ht2, hi2, hl2, htr2, hcsv2, hsum2, hlen2⟩ := run_ok_elim h
  refine ⟨?_, ?_, ?_⟩
  · intro pr hpr
    obtain ⟨j, hj, hget⟩ := List.getElem_of_mem hpr
    have hkj : j < kids2.length := by omega
    have hprq : out.results[j]? = some pr := by
      rw [List.getElem?_eq_getElem hj, hget]
    have hpi := (loop_ok_elim hl2).2.2 j kids2[j] pr (List.getElem?_eq_getElem hkj) hprq
    obtain ⟨_, d, s, _, _, hperm⟩ := extractPost_elim (postIter_ok_elim hpi).1
    exact ⟨s, hperm⟩
  · intro children kids hc hi j pr child d hpr hchild hd
    rw [hc2] at hc
    injection hc with hc
    subst hc
    rw [hi2] at hi
    injection hi with hi
    subst hi
    have hpi := (loop_ok_elim hl2).2.2 j child pr hchild hpr
    obtain ⟨_, d2, s2, hd2, hpl2, hperm2⟩ := extractPost_elim (postIter_ok_elim hpi).1
    rw [hd] at hd2
    injection hd2 with hd2
    subst hd2
    constructor
    · intro s hpl
      rw [hpl] at hpl2
      injection hpl2 with hpl2
      injection hpl2 with hpl2
      rw [hperm2, hpl2]
    · intro dkvs hdk hlk
      subst hdk
      have : pyGetD (JSON.obj dkvs) "permalink" (JSON.str "") = .ok (JSON.str "") := by
        simp [pyGetD, hlk]
      rw [this] at hpl2
      injection hpl2 with hpl2
      injection hpl2 with hpl2
      rw [hperm2, ← hpl2]
      rfl
  · intro row hrow
    rw [hcsv2] at hrow
    rw [save_comments_csv, List.mem_flatMap] at hrow
    obtain ⟨item, hitem, hrowmem⟩ := hrow
    rw [List.mem_map] at hrowmem
    obtain ⟨c, _, hceq⟩ := hrowmem
    exact ⟨item, hitem, by rw [← hceq]⟩

/-- Witness for C10: the second sample post (no upstream data at all) stores
the bare host prefix. -/
theorem claim10_witness :
    ∃ s, (⟨postA2, [], PStatus.fetch_error "boom"⟩ : PostResult).post.permalink =
      "https://www.reddit.com" ++ s :=
  (claim10_permalink "s" 5 200 2 "confidence" 0 bodyA fetchesA outA trA
    sampleRun_eq).1 ⟨postA2, [], PStatus.fetch_error "boom"⟩
    (List.Mem.tail _ (List.Mem.head _))

/-- Claim C2, amended: a fetched body that is not a list of at least two
elements yields an unexpected_shape PostResult with no comments (and the
shape test means exactly that); when the response passes the shape test and
the second element is well typed (objects and lists where the code expects
them), flattening never raises and produces exactly the kind-t1 children, in
upstream order, with every field extracted defensively (missing maps to
null); on type-mismatched values inside a shape-passing response, field
access raises and the exception propagates out of the loop. -/
theorem claim2_amended_flattener :
    (∀ (delay idx : Nat) (child body : JSON) (post : Post),
      extractPost idx child = .ok post → secondElement body = none →
      (postIter delay (CFetch.ok body) idx child).1 =
        .ok ⟨post, [], .unexpected_shape⟩) ∧
    (∀ body : JSON, secondElement body = none ↔
      ∀ elems, body = JSON.arr elems → elems.length < 2) ∧
    (∀ (delay idx : Nat) (child body : JSON) (post : Post) (second : JSON)
      (cs : List Comment),
      extractPost idx child = .ok post → secondElement body = some second →
      flattenSecond second = .ok cs →
      (postIter delay (CFetch.ok body) idx child).1 = .ok ⟨post, cs, .ok⟩) ∧
    (∀ second : JSON, secondWF second = true →
      flattenSecond second = .ok (specFlatten second)) := by
  refine ⟨?_, secondElement_none_iff, ?_, fun second h => flattenSecond_wf h⟩
  · intro delay idx child body post he hs
    rw [postIter_shape delay idx he hs]
  · intro delay idx child body post second cs he hs hf
    rw [postIter_flatten_ok delay idx he hs hf]

/-- Counterexample for C2 as stated: the body is a 2-element list, so the
claim requires the post to be marked with defensively extracted comments and
no exception; but the second element is a number, so the field access raises
AttributeError and the iteration aborts with no PostResult at all. -/
theorem claim2_counterexample :
    secondElement (JSON.arr [JSON.null, JSON.num 5]) = some (JSON.num 5) ∧
    (postIter 0 (CFetch.ok (JSON.arr [JSON.null, JSON.num 5])) 1 (JSON.obj [])).1 =
      Except.error "AttributeError" :=
  ⟨rfl, rfl⟩

/-- Witness for C2 (amended): a one-element body marks the post
unexpected_shape, and the sample well-typed second element flattens to its
spec-side value. -/
theorem claim2_witness :
    (postIter 0 (CFetch.ok (JSON.arr [JSON.null])) 1 childA2).1 =
      Except.ok ⟨⟨.null, .null, "https://www.reddit.com", 1⟩, [],
        PStatus.unexpected_shape⟩ ∧
    flattenSecond secondA = Except.ok (specFlatten secondA) :=
  ⟨claim2_amended_flattener.1 0 1 childA2 (JSON.arr [JSON.null])
      ⟨.null, .null, "https://www.reddit.com", 1⟩ rfl rfl,
   claim2_amended_flattener.2.2.2 secondA rfl⟩

/-- Claim C1: in a run whose listing succeeded, replacing any single
comment fetch outcome by a raised exception still completes the run with the
same event trace; only that post becomes a fetch_error PostResult with no
comments, and every other PostResult is unchanged — the exception is caught
locally and never propagates. -/
theorem claim1_fetch_error_isolated (sub : String) (pl cl dp : Nat) (srt : String)
    (delay : Nat) (body : JSON) (f : Nat → CFetch) (out : RunOutput) (tr : List Event)
    (k : Nat) (m : String)
    (h : reddit_hot_comments_to_csv sub pl cl dp srt delay ⟨.success body, f⟩ =
      (.ok out, tr)) :
    ∃ out2, reddit_hot_comments_to_csv sub pl cl dp srt delay
        ⟨.success body, updateFetch f k m⟩ = (.ok out2, tr) ∧
      out2.results.length = out.results.length ∧
      (∀ j : Nat, j + 1 ≠ k → out2.results[j]? = out.results[j]?) ∧
      (∀ (j : Nat) (pr : PostResult), j + 1 = k → out.results[j]? = some pr →
        out2.results[j]? = some ⟨pr.post, [], .fetch_error m⟩) := by
  obtain ⟨children, kids, hc, ht, hi, hl, htr, hcsv, hsum, hlen⟩ := run_ok_elim h
  obtain ⟨rs2, hl2, hlen2, hidx2⟩ := loop_err_update hl
  refine ⟨⟨rs2, save_comments_csv sub rs2,
    ⟨sub, rs2.length, (rs2.map (fun r => r.comments.length)).sum⟩⟩, ?_, ?_, ?_, ?_⟩
  · rw [htr]
    exact run_success_intro hc ht hi hl2
  · exact hlen2
  · intro j hne
    exact (hidx2 j).1 (by omega)
  · intro j pr heq hpr
    exact (hidx2 j).2 pr (by omega) hpr

/-- Witness for C1: injecting a fetch exception at post 1 of the sample run
still completes with the same trace, and post 1 becomes a fetch_error result
keeping its extracted post data. -/
theorem claim1_witness :
    ∃ out2, reddit_hot_comments_to_csv "s" 5 200 2 "confidence" 0
        ⟨.success bodyA, updateFetch fetchesA 1 "late"⟩ = (.ok out2, trA) ∧
      out2.results.length = outA.results.length ∧
      out2.results[0]? = some ⟨postA1, [], PStatus.fetch_error "late"⟩ := by
  obtain ⟨out2, ha, hb, _, hdj⟩ := claim1_fetch_error_isolated
    "s" 5 200 2 "confidence" 0 bodyA fetchesA outA trA 1 "late" sampleRun_eq
  exact ⟨out2, ha, hb, hdj 0 ⟨postA1, [commentA], PStatus.ok⟩ rfl rfl⟩

end RedditCsv
